import Mathlib

/-!
Verification development for the AULA-AGENTES travel-planner repository.

The definitions below are a shallow embedding of the Python sources
(langgraph_v2.py, langgraph_v1.py, agentes_viagem.py).  Pure Python
functions become Lean functions over String; the LangGraph state dict
becomes the structure TripState; message objects are represented by their
content strings.  Where the behaviour of the external LangGraph execution
engine is needed, the definition is modelled from the spec and says so in
its doc comment.
-/

/-! ## Python string primitives -/

/-- Boolean test that the first character list is a leading segment of the
second, used to implement the Python substring operator. -/
def charsLeadB : List Char → List Char → Bool
  | [], _ => true
  | _ :: _, [] => false
  | a :: as, b :: bs => a == b && charsLeadB as bs

/-- Boolean test that the first character list occurs contiguously inside
the second; this is the Python `needle in hay` operator on strings. -/
def charsContainB (needle : List Char) : List Char → Bool
  | [] => charsLeadB needle []
  | c :: cs => charsLeadB needle (c :: cs) || charsContainB needle cs

/-- Python string containment: `pyIn needle hay` is `needle in hay`. -/
def pyIn (needle hay : String) : Bool :=
  charsContainB needle.data hay.data

/-- Propositional substring relation: `sub` occurs verbatim inside `hay`. -/
def strSubP (sub hay : String) : Prop :=
  ∃ pre post : List Char, hay.data = pre ++ sub.data ++ post

/-- Python `str.upper` on one character, restricted to the Basic Latin and
Latin-1 repertoire that the templates of this program use; characters
outside that repertoire are returned unchanged.  The Latin-1 lowercase
letters map to their uppercase forms 32 code points below, with the three
standard exceptions of that block. -/
def pyUpperChar (c : Char) : List Char :=
  if 'a' ≤ c ∧ c ≤ 'z' then [Char.ofNat (c.toNat - 32)]
  else if c = 'ß' then ['S', 'S']
  else if c = 'µ' then ['Μ']
  else if c = 'ÿ' then ['Ÿ']
  else if ('à' ≤ c ∧ c ≤ 'ö') ∨ ('ø' ≤ c ∧ c ≤ 'þ') then [Char.ofNat (c.toNat - 32)]
  else [c]

/-- Python `str.upper` over a character list. -/
def pyUpperChars : List Char → List Char
  | [] => []
  | c :: cs => pyUpperChar c ++ pyUpperChars cs

/-- Python `str.upper` on a string. -/
def pyUpper (s : String) : String :=
  ⟨pyUpperChars s.data⟩

/-- Python `str.strip` with no argument: drop whitespace characters from
both ends (restricted to the ASCII whitespace the inputs of this program
use). -/
def pyStrip (s : String) : String :=
  ⟨((s.data.dropWhile Char.isWhitespace).reverse.dropWhile
      Char.isWhitespace).reverse⟩

/-- Python `a or b` on strings, where the empty string is falsy. -/
def pyOrStr (a b : String) : String :=
  if a = "" then b else a

/-- Python truthiness of an optional string: `None` and `""` are falsy. -/
def pyTruthy : Option String → Bool
  | none => false
  | some s => s ≠ ""

/-- Python `a or b` on optional strings (None and "" are falsy). -/
def pyOrOpt (a b : Option String) : Option String :=
  if pyTruthy a then a else b

/-! ## Dates: `_parse_date` and `validate_inputs` (langgraph_v2.py lines 85 to 104) -/

/-- Calendar date, the result of a successful parse. -/
structure PyDate where
  year : Nat
  month : Nat
  day : Nat
deriving DecidableEq, Repr

/-- Gregorian leap year rule. -/
def isLeapYear (y : Nat) : Bool :=
  y % 4 == 0 && (y % 100 != 0 || y % 400 == 0)

/-- Number of days of month `m` of year `y`. -/
def daysInMonth (y m : Nat) : Nat :=
  if m = 2 then (if isLeapYear y then 29 else 28)
  else if m = 4 ∨ m = 6 ∨ m = 9 ∨ m = 11 then 30
  else 31

/-- Python `date` comparison `a < b`: lexicographic on year, month, day. -/
def dateLt (a b : PyDate) : Bool :=
  Nat.blt a.year b.year ||
    (a.year == b.year &&
      (Nat.blt a.month b.month ||
        (a.month == b.month && Nat.blt a.day b.day)))

/-- Embedding of `_parse_date` applied to a string input: the
`datetime.fromisoformat(str(d)).date()` call of langgraph_v2.py, restricted
to the date-only AAAA-MM-DD form that this application feeds it (the CLI
and the tests pass date strings).  The parse succeeds exactly on ten
characters, four digits, a dash, two digits, a dash, two digits, denoting a
valid calendar date with year at least 1. -/
def parse_date (s : String) : Option PyDate :=
  match s.data with
  | [y1, y2, y3, y4, h1, m1, m2, h2, d1, d2] =>
    if y1.isDigit && y2.isDigit && y3.isDigit && y4.isDigit && h1 == '-' &&
        m1.isDigit && m2.isDigit && h2 == '-' && d1.isDigit && d2.isDigit then
      let y := (y1.toNat - 48) * 1000 + (y2.toNat - 48) * 100 +
        (y3.toNat - 48) * 10 + (y4.toNat - 48)
      let m := (m1.toNat - 48) * 10 + (m2.toNat - 48)
      let d := (d1.toNat - 48) * 10 + (d2.toNat - 48)
      if 1 ≤ y ∧ 1 ≤ m ∧ m ≤ 12 ∧ 1 ≤ d ∧ d ≤ daysInMonth y m then
        some ⟨y, m, d⟩
      else none
    else none
  | _ => none

/-- Message shown when the destination is missing. -/
def msgDestino : String := "Por favor, informe o destino."

/-- Message shown when a date fails to parse. -/
def msgDatas : String := "Datas inválidas: use formato ISO AAAA-MM-DD."

/-- Message shown when the end date precedes the start date. -/
def msgTermino : String := "A data de término deve ser posterior à data de início."

/-- Embedding of `validate_inputs` of langgraph_v2.py: empty or
whitespace-only destination fails first, then both dates must parse, then
the end date must not precede the start date. -/
def validate_inputs (destino data_inicio data_fim : String) :
    Bool × Option String :=
  if pyStrip destino = "" then (false, some msgDestino)
  else
    match parse_date data_inicio, parse_date data_fim with
    | some d0, some d1 =>
      if dateLt d1 d0 then (false, some msgTermino)
      else (true, none)
    | _, _ => (false, some msgDatas)

/-! ## DummyLLM (langgraph_v2.py lines 114 to 188) -/

/-- Stub returned by DummyLLM for a prompt containing HOSPEDAGEM and
TABELA: the markdown hotel table (triple-quoted literal after strip). -/
def hotelsStub : String :=
  "| Nome | Endereço | Site | Telefone |\n" ++
  "| --- | --- | --- | --- |\n" ++
  "| Hotel Central | Rua A, 123 | https://hotelcentral.example | +351 21 000 000 |\n" ++
  "| Boutique Vista | Av. B, 456 | https://boutiquevista.example | +351 21 111 111 |\n" ++
  "| Porto Inn | Rua C, 789 | https://portoinn.example | +351 21 222 222 |\n" ++
  "\n" ++
  "**Fontes**: [Turismo Local](https://turismo.local), [Guias Exemplo](https://guia.exemplo)"

/-- Stub returned by DummyLLM for a prompt containing LAZER: the bulleted
attraction and event list. -/
def leisureStub : String :=
  "- Castelo Histórico — Panorama da cidade. <https://castelo.example>\n" ++
  "- Museu de Arte — Coleções modernas. <https://museu.example>\n" ++
  "- Mercado Central — Gastronomia local. <https://mercado.example>\n" ++
  "\n" ++
  "**Eventos (período)**\n" ++
  "- Festival de Verão — Música ao ar livre. <https://festival.example>\n" ++
  "- Feira de Livros — Autores locais. <https://feira.example>\n" ++
  "\n" ++
  "**Fontes**: [Agenda Cultural](https://agenda.example)"

/-- Stub returned by DummyLLM for a prompt containing ALIMENTAÇÃO: the
restaurant table and typical dishes. -/
def foodStub : String :=
  "| Nome | Bairro | Faixa de Preço | Cozinha | Site |\n" ++
  "| --- | --- | --- | --- | --- |\n" ++
  "| Tasca do Bairro | Centro | $$ | Portuguesa | https://tasca.example |\n" ++
  "| Mar & Brasa | Ribeira | $$$ | Peixes e grelhados | https://marebrasa.example |\n" ++
  "\n" ++
  "**Comidas típicas**: Bacalhau à Brás, Pastel de Nata, Caldo Verde, Francesinha.\n" ++
  "\n" ++
  "**Fontes**: [Guia Gastronômico](https://gastronomia.example)"

/-- Stub returned by DummyLLM for a prompt containing RELATÓRIO FINAL: the
prose report. -/
def reportStub : String :=
  "Introdução: Este roteiro sintetiza opções de hospedagem, lazer e alimentação " ++
  "para uma experiência equilibrada.\n\n" ++
  "Hospedagem: ver tabela acima.\n\nLazer: destaques culturais e eventos no período.\n\n" ++
  "Alimentação: restaurantes recomendados e comidas típicas.\n\n" ++
  "Mini-roteiro: Dia 1 — centro histórico; Dia 2 — museus; Dia 3 — orla.\n\n" ++
  "Dicas rápidas: compre bilhetes antecipados; use transporte público; atenção a pertences.\n\n" ++
  "Fontes: consolidadas ao final das seções."

/-- Default stub of DummyLLM when no marker matches: the general planning
answer with the three numbered subtasks. -/
def planStub : String :=
  "1) HOSPEDAGEM — Selecionar hotéis bem localizados e com bom custo-benefício.\n" ++
  "2) LAZER — Mapear atrações essenciais e eventos no período.\n" ++
  "3) ALIMENTAÇÃO — Levantar restaurantes e comidas típicas.\n" ++
  "\n" ++
  "**Critérios**\n" ++
  "- Proximidade a transporte/centro\n" ++
  "- Avaliações consistentes\n" ++
  "- Adequação ao orçamento/preferências\n" ++
  "- Variedade de experiências\n" ++
  "\n" ++
  "Justificativa: o recorte em 3 pilares organiza a pesquisa e facilita decisões."

/-- Embedding of `DummyLLM.invoke`: messages are joined by blank lines,
uppercased, and scanned for the stage markers in the fixed priority order
of the source; the matching stub (its `.content`) is returned, defaulting
to the planning stub. -/
def dummyInvoke (messages : List String) : String :=
  let prompt := String.intercalate "\n\n" messages
  let up := pyUpper prompt
  if pyIn "HOSPEDAGEM" up && pyIn "TABELA" up then hotelsStub
  else if pyIn "LAZER" up then leisureStub
  else if pyIn "ALIMENTAÇÃO" up then foodStub
  else if pyIn "RELATÓRIO FINAL" up then reportStub
  else planStub

set_option maxRecDepth 100000


/-! ## Graph state (TripState, langgraph_v2.py lines 68 to 79) -/

/-- The LangGraph state dict: the five request fields plus the five
stage-output channels, which are absent (none) until their stage writes
them (total=False in the source). -/
structure TripState where
  destino : String
  data_inicio : String
  data_fim : String
  orcamento : String
  preferencias : String
  plan : Option String := none
  hotels : Option String := none
  leisure : Option String := none
  food : Option String := none
  final : Option String := none
deriving DecidableEq, Repr

/-- The model capability: a list of message contents in, generated text
out (the `.content` of the response). -/
abbrev Capability := List String → String

/-- Ambient process environment of langgraph_v2.py: the GROQ_API_KEY
variable as the OS reports it, and the optional ChatGroq constructor (none
models langchain_groq failing to import; some mk models the real client,
whose behaviour for a given key is the opaque capability mk key). -/
structure PyEnv where
  groq_api_key : Option String
  chatGroq : Option (String → Capability)

/-- Embedding of `_get_llm_impl`: resolve the key as `api_key or
os.environ.get(GROQ_API_KEY)`, construct ChatGroq when the class is
importable and the key is truthy, otherwise fall back to DummyLLM.  The
temperature float is plumbing that no claim depends on and is not
modelled. -/
def get_llm_impl (env : PyEnv) (api_key : Option String) : Capability :=
  let key := pyOrOpt api_key env.groq_api_key
  match env.chatGroq with
  | some mk => if pyTruthy key then mk (key.getD "") else dummyInvoke
  | none => dummyInvoke

/-- Embedding of headless `get_llm`, which is `_get_llm_impl` when
Streamlit is unavailable. -/
def get_llm (env : PyEnv) (api_key : Option String) : Capability :=
  get_llm_impl env api_key

/-- Ambient environment of langgraph_v1.py, where ChatGroq is imported
unconditionally. -/
structure PyEnvV1 where
  groq_api_key : Option String
  chatGroq : String → Capability

/-- Embedding of `get_llm` of langgraph_v1.py: same key resolution, but
with no fallback it raises ValueError when no key resolves. -/
def get_llm_v1 (env : PyEnvV1) (api_key : Option String) :
    Except String Capability :=
  let key := pyOrOpt api_key env.groq_api_key
  if pyTruthy key then Except.ok (env.chatGroq (key.getD ""))
  else Except.error
    "Defina a GROQ_API_KEY no ambiente, em st.secrets, ou informe no campo de API Key."

/-! ## Prompt templates (langgraph_v2.py lines 214 to 336; the same
templates appear verbatim in langgraph_v1.py lines 68 to 192) -/

/-- System message of the planner node. -/
def plannerSystem : String :=
  "Você estrutura planos objetivos e práticos em 3 passos fixos."

/-- Human message of the planner node: the f-string of lines 217 to 233,
with each literal backslash-n escape followed by the physical line break
of the triple-quoted template. -/
def plannerHuman (s : TripState) : String :=
  "\nPLANEJAMENTO GERAL\n\nDestino: " ++ s.destino ++ "\n\nDatas: " ++
  s.data_inicio ++ " a " ++ s.data_fim ++ "\n\nOrçamento: " ++ s.orcamento ++
  "\n\nPreferências: " ++ s.preferencias ++
  "\n\n\n\nSua função: **Roteirista de Viagens**.\n\n" ++
  "Objetivo: Gerar um plano de pesquisa dividido em **EXATAMENTE 3 subtarefas numeradas**:\n\n" ++
  "1) HOSPEDAGEM; 2) LAZER; 3) ALIMENTAÇÃO.\n\n\n\n" ++
  "Regras de saída (em Markdown):\n\n" ++
  "- Liste as 3 subtarefas numeradas (cada uma com 1 frase).\n\n" ++
  "- Em seguida, traga 3–5 critérios de seleção (bullets) considerando orçamento e preferências.\n\n" ++
  "- Feche com 1–2 linhas de justificativa.\n\n" ++
  "Retorne **somente** esse conteúdo.\n"

/-- System message of the hotels node. -/
def hotelsSystem : String :=
  "Você verifica informações de hotéis e organiza dados de contato."

/-- Human message of the hotels node (lines 243 to 254); the plan channel
is read with `state.get(plan, empty)`. -/
def hotelsHuman (s : TripState) : String :=
  "\nHOSPEDAGEM\n\nDestino: " ++ s.destino ++ "\n\nPeríodo: " ++
  s.data_inicio ++ " – " ++ s.data_fim ++ "\n\nOrçamento: " ++ s.orcamento ++
  "\n\nPreferências: " ++ s.preferencias ++ "\n\nPlano do roteirista:\n\n" ++
  s.plan.getD "" ++ "\n\n\n\n" ++
  "Entregue uma **tabela Markdown** com as colunas: **Nome | Endereço | Site | Telefone**.\n\n" ++
  "Inclua **5–8 opções** e **2–4 fontes** (título + URL) ao final.\n"

/-- System message of the leisure node. -/
def leisureSystem : String :=
  "Você encontra atrações e eventos relevantes às datas."

/-- Human message of the leisure node (lines 264 to 274). -/
def leisureHuman (s : TripState) : String :=
  "\nLAZER\n\nDestino: " ++ s.destino ++ "\n\nPeríodo: " ++
  s.data_inicio ++ " – " ++ s.data_fim ++ "\n\nPlano do roteirista:\n\n" ++
  s.plan.getD "" ++ "\n\n\n\n" ++
  "Liste **8–12 pontos turísticos essenciais** (com breve descrição e link).\n\n" ++
  "Depois, **3–5 eventos** que ocorram no período informado (com breve descrição e link).\n\n" ++
  "Formate em listas e finalize com **2–4 fontes** (título + URL).\n"

/-- System message of the food node. -/
def foodSystem : String :=
  "Você conhece a cena gastronômica e as especialidades locais."

/-- Human message of the food node (lines 284 to 295). -/
def foodHuman (s : TripState) : String :=
  "\nALIMENTAÇÃO\n\nDestino: " ++ s.destino ++ "\n\nPreferências: " ++
  s.preferencias ++ "\n\nPlano do roteirista:\n\n" ++ s.plan.getD "" ++
  "\n\n\n\n1) Recomende **8–12 restaurantes** (\n\n" ++
  "   entregue em **tabela Markdown** com **Nome | Bairro | Faixa de Preço | Cozinha | Site**).\n\n" ++
  "2) Liste **5–8 comidas típicas** com breve explicação.\n\n" ++
  "Finalize com **2–4 fontes** (título + URL).\n"

/-- System message of the writer node. -/
def writerSystem : String :=
  "Você escreve de forma clara, didática e organizada."

/-- Human message of the writer node (lines 305 to 332): the synthesis
prompt embedding the four earlier outputs verbatim. -/
def writerHuman (s : TripState) : String :=
  "\nRELATÓRIO FINAL\n\n" ++
  "Use o plano (PLANEJAMENTO) e as entregas de HOSPEDAGEM, LAZER e ALIMENTAÇÃO para compor o texto final **(500–700 palavras)**.\n\n" ++
  "Inclua:\n\n- Introdução breve;\n\n" ++
  "- Seções: **Hospedagem**, **Lazer**, **Alimentação** (incorpore tabelas/listas quando aplicável);\n\n" ++
  "- Mini-roteiro sugerido **por dia** (alto nível);\n\n" ++
  "- **Dicas rápidas** (transporte/segurança);\n\n" ++
  "- Seção **Fontes** consolidada.\n\n\n\nContexto:\n\n- Destino: " ++
  s.destino ++ "\n\n- Datas: " ++ s.data_inicio ++ " a " ++ s.data_fim ++
  "\n\n- Orçamento: " ++ s.orcamento ++ "\n\n- Preferências: " ++
  s.preferencias ++ "\n\n\n\n=== PLANEJAMENTO ===\n\n" ++ s.plan.getD "" ++
  "\n\n\n\n=== HOSPEDAGEM ===\n\n" ++ s.hotels.getD "" ++
  "\n\n\n\n=== LAZER ===\n\n" ++ s.leisure.getD "" ++
  "\n\n\n\n=== ALIMENTAÇÃO ===\n\n" ++ s.food.getD "" ++ "\n"

/-! ## Graph nodes and the compiled graph (langgraph_v2.py lines 214 to 357) -/

/-- Embedding of `make_planner_node`: the returned node ignores the llm
argument and resolves its capability by calling `get_llm(None)` at each
invocation; it returns a dict holding only the `plan` key. -/
def make_planner_node (llm : Capability) (env : PyEnv) :
    TripState → List (String × String) :=
  fun s => [("plan", get_llm env none [plannerSystem, plannerHuman s])]

/-- Embedding of `make_hotels_node` (same shape, key `hotels`). -/
def make_hotels_node (llm : Capability) (env : PyEnv) :
    TripState → List (String × String) :=
  fun s => [("hotels", get_llm env none [hotelsSystem, hotelsHuman s])]

/-- Embedding of `make_leisure_node` (key `leisure`). -/
def make_leisure_node (llm : Capability) (env : PyEnv) :
    TripState → List (String × String) :=
  fun s => [("leisure", get_llm env none [leisureSystem, leisureHuman s])]

/-- Embedding of `make_food_node` (key `food`). -/
def make_food_node (llm : Capability) (env : PyEnv) :
    TripState → List (String × String) :=
  fun s => [("food", get_llm env none [foodSystem, foodHuman s])]

/-- Embedding of `make_writer_node` (key `final`). -/
def make_writer_node (llm : Capability) (env : PyEnv) :
    TripState → List (String × String) :=
  fun s => [("final", get_llm env none [writerSystem, writerHuman s])]

/-- Merge one key of a node result dict into the state: LangGraph writes
each returned key into its state channel (last value wins); keys outside
the schema do not occur in this program. -/
def applyUpdate (s : TripState) (kv : String × String) : TripState :=
  if kv.1 = "plan" then { s with plan := some kv.2 }
  else if kv.1 = "hotels" then { s with hotels := some kv.2 }
  else if kv.1 = "leisure" then { s with leisure := some kv.2 }
  else if kv.1 = "food" then { s with food := some kv.2 }
  else if kv.1 = "final" then { s with final := some kv.2 }
  else s

/-- The five nodes of `build_graph` in the order of its edge chain:
planner, hotels, leisure, food, writer. -/
def graphStages (llm : Capability) (env : PyEnv) :
    List (String × (TripState → List (String × String))) :=
  [("planner", make_planner_node llm env),
   ("hotels", make_hotels_node llm env),
   ("leisure", make_leisure_node llm env),
   ("food", make_food_node llm env),
   ("writer", make_writer_node llm env)]

/-- Embedding of `build_graph(llm).invoke`: the nodes and the edge chain
are from the source; the execution engine of the compiled StateGraph is
the external LangGraph library, modelled from the spec as the strictly
sequential run of the chain, each stage merging its returned dict into the
state before the next stage runs. -/
def build_graph (llm : Capability) (env : PyEnv) : TripState → TripState :=
  fun s0 => (graphStages llm env).foldl
    (fun s st => (st.2 s).foldl applyUpdate s) s0

/-- Trace of every (key, value) pair written during one sequential run of
the compiled graph, in write order. -/
def runTrace (llm : Capability) (env : PyEnv) (s0 : TripState) :
    List (String × String) :=
  ((graphStages llm env).foldl
      (fun p st =>
        let u := st.2 p.1
        (u.foldl applyUpdate p.1, p.2 ++ u))
      (s0, ([] : List (String × String)))).2

/-- Environment with no ChatGroq import and no key: `get_llm` falls back
to DummyLLM. -/
def dummyEnv : PyEnv := ⟨none, none⟩

/-- The fixed request of `run_tests` (langgraph_v2.py lines 508 to 514). -/
def testRequest : TripState :=
  { destino := "Lisboa, Portugal"
    data_inicio := "2025-01-01"
    data_fim := "2025-01-05"
    orcamento := "R$ 5.000"
    preferencias := "Museus e bairros históricos" }


/-! ## Fail-fast orchestration with GenerationError -/

/-- A fallible model capability: a stage invocation either returns text or
raises a generation error carrying a message. -/
abbrev FCapability := List String → Except String String

/-- Modelled from the spec: the stage executor contract `run_stage(stage,
messages) -> text`, which fails with GenerationError when the capability
raises or returns empty content.  No such wrapper exists under src; the
behaviour on a raising capability is decided by the external LangGraph
engine, re-specified in sections 4.2 and 4.3 of the spec. -/
def run_stage (cap : FCapability) (messages : List String) :
    Except String String :=
  match cap messages with
  | Except.error e => Except.error e
  | Except.ok t => if t = "" then Except.error "empty content" else Except.ok t

/-- The five stages in chain order, each with its node name, its output
key, and its prompt builder (all three from the source). -/
def stagePlanList : List (String × String × (TripState → List String)) :=
  [("planner", "plan", fun s => [plannerSystem, plannerHuman s]),
   ("hotels", "hotels", fun s => [hotelsSystem, hotelsHuman s]),
   ("leisure", "leisure", fun s => [leisureSystem, leisureHuman s]),
   ("food", "food", fun s => [foodSystem, foodHuman s]),
   ("writer", "final", fun s => [writerSystem, writerHuman s])]

/-- Modelled from the spec: fail-fast sequential orchestration.  Stages run
in chain order; a successful stage merges its output key into the context;
on GenerationError the run halts immediately, keeps the partial context,
and propagates the error paired with the name of the failing stage. -/
def runPipelineF (cap : FCapability) (s0 : TripState) :
    TripState × Option (String × String) :=
  stagePlanList.foldl
    (fun p st =>
      match p.2 with
      | some _ => p
      | none =>
        match run_stage cap (st.2.2 p.1) with
        | Except.ok t => (applyUpdate p.1 (st.2.1, t), none)
        | Except.error e => (p.1, some (st.1, e)))
    (s0, none)

/-- Capability whose hotels-stage invocation raises (recognised by the
hotels system message) while every other invocation answers like
DummyLLM. -/
def failingHotelsCap : FCapability := fun messages =>
  if messages.headD "" = hotelsSystem then Except.error "boom"
  else Except.ok (dummyInvoke messages)

/-! ## CLI (run_cli, langgraph_v2.py lines 449 to 486) -/

/-- The CLI-relevant process environment variables, each absent or set. -/
structure CliEnv where
  DESTINO : Option String
  DATA_INICIO : Option String
  DATA_FIM : Option String
  ORCAMENTO : Option String
  PREFERENCIAS : Option String

/-- Interactive answers typed at the three input prompts, used when the
corresponding variable is absent or empty. -/
structure CliStdin where
  destino : String
  data_inicio : String
  data_fim : String

/-- The request fields as `run_cli` resolves them: the first three fall
back from the environment to stripped interactive input (Python `or`, so
an empty variable also falls through); the two optional fields use
`os.environ.get` with the placeholder as default, so only an absent
variable yields the placeholder. -/
def cliRequest (env : CliEnv) (stdin : CliStdin) : TripState :=
  { destino := pyOrStr (env.DESTINO.getD "") (pyStrip stdin.destino)
    data_inicio := pyOrStr (env.DATA_INICIO.getD "") (pyStrip stdin.data_inicio)
    data_fim := pyOrStr (env.DATA_FIM.getD "") (pyStrip stdin.data_fim)
    orcamento := env.ORCAMENTO.getD "não informado"
    preferencias := env.PREFERENCIAS.getD "não informado" }

/-- Observable outcome of one `run_cli` invocation: the arguments of its
print calls in order, the process exit code, whether `build_graph` was
reached, and how many model-capability invocations happened (one per node
execution). -/
structure CliRun where
  stdout : List String
  exitCode : Nat
  graphBuilt : Bool
  modelCalls : Nat
deriving DecidableEq, Repr

/-- First line printed by `run_cli`. -/
def cliIntro : String :=
  "[Modo CLI] Streamlit não detectado — rodando em modo texto.\n"

/-- Embedding of `run_cli`: resolve the request, validate, and on failure
print the error and exit with status 2 before any graph construction or
model call; on success build the graph, invoke it, and print the five
sections in the fixed order plan, hotels, leisure, food, final. -/
def run_cli (penv : PyEnv) (env : CliEnv) (stdin : CliStdin) : CliRun :=
  let s0 := cliRequest env stdin
  let v := validate_inputs s0.destino s0.data_inicio s0.data_fim
  if v.1 = false then
    { stdout := [cliIntro, "Erro: " ++ v.2.getD ""]
      exitCode := 2
      graphBuilt := false
      modelCalls := 0 }
  else
    let llm := get_llm penv penv.groq_api_key
    let fs := build_graph llm penv s0
    { stdout := [cliIntro,
        "\n=== 📋 PLANEJAMENTO ===\n", fs.plan.getD "",
        "\n=== 🏨 HOSPEDAGEM ===\n", fs.hotels.getD "",
        "\n=== 🎭 LAZER ===\n", fs.leisure.getD "",
        "\n=== 🍽️ ALIMENTAÇÃO ===\n", fs.food.getD "",
        "\n=== ✨ RELATÓRIO FINAL ===\n", fs.final.getD ""]
      exitCode := 0
      graphBuilt := true
      modelCalls := (runTrace llm penv s0).length }

/-! ## Initial state of the form variants -/

/-- Embedding of the initial state built by langgraph_v1.py lines 270 to
276 (identically by the Streamlit branch of langgraph_v2.py and by the
`crew.kickoff` inputs of agentes_viagem.py): the two optional fields fall
back to the placeholder through Python `or`, which also catches the empty
string. -/
def initial_state_v1 (destino data_inicio data_fim orcamento preferencias :
    String) : TripState :=
  { destino := destino
    data_inicio := data_inicio
    data_fim := data_fim
    orcamento := pyOrStr orcamento "não informado"
    preferencias := pyOrStr preferencias "não informado" }

/-- Environment in which ChatGroq is importable, GROQ_API_KEY is set, and
the real client answers PROBE to every prompt. -/
def probeEnv : PyEnv := ⟨some "k", some (fun _ _ => "PROBE")⟩

/-! ## Helper lemmas -/

/-- A string occurs at the tail of an append. -/
theorem strSubP_tail (t sub : String) : strSubP sub (t ++ sub) :=
  ⟨t.data, [], by simp [String.data_append]⟩

/-- Substring occurrence is preserved by appending on the right. -/
theorem strSubP_appendRight (sub hay t : String) (h : strSubP sub hay) :
    strSubP sub (hay ++ t) := by
  obtain ⟨pre, post, hh⟩ := h
  exact ⟨pre, post ++ t.data, by simp [String.data_append, hh]⟩

/-- Whatever the messages, DummyLLM answers with one of its five fixed
stubs. -/
theorem dummyInvoke_mem_stubs (messages : List String) :
    dummyInvoke messages = hotelsStub ∨ dummyInvoke messages = leisureStub ∨
    dummyInvoke messages = foodStub ∨ dummyInvoke messages = reportStub ∨
    dummyInvoke messages = planStub := by
  unfold dummyInvoke
  dsimp only
  split
  · exact Or.inl rfl
  split
  · exact Or.inr (Or.inl rfl)
  split
  · exact Or.inr (Or.inr (Or.inl rfl))
  split
  · exact Or.inr (Or.inr (Or.inr (Or.inl rfl)))
  · exact Or.inr (Or.inr (Or.inr (Or.inr rfl)))

/-- DummyLLM never returns empty content. -/
theorem dummyInvoke_ne_empty (messages : List String) :
    dummyInvoke messages ≠ "" := by
  rcases dummyInvoke_mem_stubs messages with h | h | h | h | h <;>
    rw [h] <;> decide

/-- One sequential run of the five-stage chain with capability c: each
stage writes its key, later stage prompts read the updated state. -/
def seqRun (c : Capability) (s : TripState) : TripState :=
  let s1 := { s with plan := some (c [plannerSystem, plannerHuman s]) }
  let s2 := { s1 with hotels := some (c [hotelsSystem, hotelsHuman s1]) }
  let s3 := { s2 with leisure := some (c [leisureSystem, leisureHuman s2]) }
  let s4 := { s3 with food := some (c [foodSystem, foodHuman s3]) }
  { s4 with final := some (c [writerSystem, writerHuman s4]) }

/-- The compiled graph run coincides with the sequential run under the
capability the nodes actually resolve, which is get_llm of no key. -/
theorem build_graph_eq_seqRun (llm : Capability) (env : PyEnv)
    (s : TripState) : build_graph llm env s = seqRun (get_llm env none) s := rfl

/-! ## Claim theorems -/

/-- C3: for every input triple, a destination that is empty after
stripping fails with the destination message; a non-empty destination with
both dates parsing and end date at least the start date succeeds with
(true, none); a non-empty destination with both dates parsing and the end
date before the start date fails with the end-before-start message; the
two failure messages are non-empty and identify distinct conditions. -/
theorem validate_inputs_spec (destino data_inicio data_fim : String) :
    (pyStrip destino = "" →
      validate_inputs destino data_inicio data_fim = (false, some msgDestino)) ∧
    (∀ d0 d1 : PyDate, pyStrip destino ≠ "" →
      parse_date data_inicio = some d0 → parse_date data_fim = some d1 →
      dateLt d1 d0 = false →
      validate_inputs destino data_inicio data_fim = (true, none)) ∧
    (∀ d0 d1 : PyDate, pyStrip destino ≠ "" →
      parse_date data_inicio = some d0 → parse_date data_fim = some d1 →
      dateLt d1 d0 = true →
      validate_inputs destino data_inicio data_fim = (false, some msgTermino)) ∧
    msgDestino ≠ "" ∧ msgTermino ≠ "" ∧ msgDestino ≠ msgTermino := by
  refine ⟨fun h => ?_, fun d0 d1 hne h0 h1 hlt => ?_,
    fun d0 d1 hne h0 h1 hlt => ?_, by decide, by decide, by decide⟩
  · simp [validate_inputs, h]
  · simp [validate_inputs, hne, h0, h1, hlt]
  · simp [validate_inputs, hne, h0, h1, hlt]

/-- Witness for C3: the three cases at the concrete inputs of the embedded
tests. -/
theorem validate_inputs_spec_witness :
    validate_inputs "" "2025-01-01" "2025-01-02" = (false, some msgDestino) ∧
    validate_inputs "Lisboa" "2025-01-01" "2025-01-03" = (true, none) ∧
    validate_inputs "Porto" "2025-01-03" "2025-01-01" = (false, some msgTermino) := by
  refine ⟨(validate_inputs_spec "" "2025-01-01" "2025-01-02").1 (by decide),
    (validate_inputs_spec "Lisboa" "2025-01-01" "2025-01-03").2.1
      ⟨2025, 1, 1⟩ ⟨2025, 1, 3⟩ (by decide) (by decide) (by decide) (by decide),
    (validate_inputs_spec "Porto" "2025-01-03" "2025-01-01").2.2.1
      ⟨2025, 1, 3⟩ ⟨2025, 1, 1⟩ (by decide) (by decide) (by decide) (by decide)⟩

/-- C2: for every state reaching the writer, the human prompt built by the
writer node contains the texts stored under plan, hotels, leisure and food
as verbatim substrings (the template of make_writer_node, identical in
langgraph_v2.py and langgraph_v1.py). -/
theorem writer_prompt_contains_prior_outputs (s : TripState)
    (p h l f : String) (hp : s.plan = some p) (hh : s.hotels = some h)
    (hl : s.leisure = some l) (hf : s.food = some f) :
    strSubP p (writerHuman s) ∧ strSubP h (writerHuman s) ∧
    strSubP l (writerHuman s) ∧ strSubP f (writerHuman s) := by
  unfold writerHuman
  rw [hp, hh, hl, hf]
  simp only [Option.getD_some]
  refine ⟨?_, ?_, ?_, ?_⟩
  · iterate 7 apply strSubP_appendRight
    exact strSubP_tail _ _
  · iterate 5 apply strSubP_appendRight
    exact strSubP_tail _ _
  · iterate 3 apply strSubP_appendRight
    exact strSubP_tail _ _
  · iterate 1 apply strSubP_appendRight
    exact strSubP_tail _ _

/-- Witness for C2 at a concrete state. -/
theorem writer_prompt_contains_prior_outputs_witness :
    strSubP "PLAN-TEXT" (writerHuman { testRequest with
      plan := some "PLAN-TEXT", hotels := some "HOTELS-TEXT",
      leisure := some "LEISURE-TEXT", food := some "FOOD-TEXT" }) ∧
    strSubP "HOTELS-TEXT" (writerHuman { testRequest with
      plan := some "PLAN-TEXT", hotels := some "HOTELS-TEXT",
      leisure := some "LEISURE-TEXT", food := some "FOOD-TEXT" }) ∧
    strSubP "LEISURE-TEXT" (writerHuman { testRequest with
      plan := some "PLAN-TEXT", hotels := some "HOTELS-TEXT",
      leisure := some "LEISURE-TEXT", food := some "FOOD-TEXT" }) ∧
    strSubP "FOOD-TEXT" (writerHuman { testRequest with
      plan := some "PLAN-TEXT", hotels := some "HOTELS-TEXT",
      leisure := some "LEISURE-TEXT", food := some "FOOD-TEXT" }) :=
  writer_prompt_contains_prior_outputs _ _ _ _ _ rfl rfl rfl rfl

/-- C1: for every request with non-empty destination and parseable dates,
running the compiled five-node graph with the DummyLLM fallback capability
populates all five context keys with non-empty text, and the run is
deterministic: the resulting context depends only on the five request
fields, so two runs on the same request produce identical contents. -/
theorem dummy_pipeline_populates_all_keys (env : PyEnv) (llm : Capability)
    (s : TripState) (henv : get_llm_impl env none = dummyInvoke)
    (hdest : pyStrip s.destino ≠ "")
    (h0 : (parse_date s.data_inicio).isSome = true)
    (h1 : (parse_date s.data_fim).isSome = true) :
    (∃ t, (build_graph llm env s).plan = some t ∧ t ≠ "") ∧
    (∃ t, (build_graph llm env s).hotels = some t ∧ t ≠ "") ∧
    (∃ t, (build_graph llm env s).leisure = some t ∧ t ≠ "") ∧
    (∃ t, (build_graph llm env s).food = some t ∧ t ≠ "") ∧
    (∃ t, (build_graph llm env s).final = some t ∧ t ≠ "") ∧
    (∀ s' : TripState, s'.destino = s.destino →
      s'.data_inicio = s.data_inicio → s'.data_fim = s.data_fim →
      s'.orcamento = s.orcamento → s'.preferencias = s.preferencias →
      build_graph llm env s' = build_graph llm env s) := by
  have hc : get_llm env none = dummyInvoke := henv
  refine ⟨?_, ?_, ?_, ?_, ?_, ?_⟩
  · rw [build_graph_eq_seqRun, hc]
    exact ⟨_, rfl, dummyInvoke_ne_empty _⟩
  · rw [build_graph_eq_seqRun, hc]
    exact ⟨_, rfl, dummyInvoke_ne_empty _⟩
  · rw [build_graph_eq_seqRun, hc]
    exact ⟨_, rfl, dummyInvoke_ne_empty _⟩
  · rw [build_graph_eq_seqRun, hc]
    exact ⟨_, rfl, dummyInvoke_ne_empty _⟩
  · rw [build_graph_eq_seqRun, hc]
    exact ⟨_, rfl, dummyInvoke_ne_empty _⟩
  · intro s' e1 e2 e3 e4 e5
    obtain ⟨d, di, df, o, pr, pl, ho, le, fo, fi⟩ := s
    obtain ⟨d', di', df', o', pr', pl', ho', le', fo', fi'⟩ := s'
    simp only at e1 e2 e3 e4 e5
    subst e1 e2 e3 e4 e5
    rfl

/-- Witness for C1 at the request of the embedded tests, in the
environment with neither ChatGroq nor a key. -/
theorem dummy_pipeline_populates_all_keys_witness :
    (∃ t, (build_graph dummyInvoke dummyEnv testRequest).plan = some t ∧ t ≠ "") ∧
    (∃ t, (build_graph dummyInvoke dummyEnv testRequest).hotels = some t ∧ t ≠ "") ∧
    (∃ t, (build_graph dummyInvoke dummyEnv testRequest).leisure = some t ∧ t ≠ "") ∧
    (∃ t, (build_graph dummyInvoke dummyEnv testRequest).food = some t ∧ t ≠ "") ∧
    (∃ t, (build_graph dummyInvoke dummyEnv testRequest).final = some t ∧ t ≠ "") ∧
    (∀ s' : TripState, s'.destino = testRequest.destino →
      s'.data_inicio = testRequest.data_inicio →
      s'.data_fim = testRequest.data_fim →
      s'.orcamento = testRequest.orcamento →
      s'.preferencias = testRequest.preferencias →
      build_graph dummyInvoke dummyEnv s' =
        build_graph dummyInvoke dummyEnv testRequest) :=
  dummy_pipeline_populates_all_keys dummyEnv dummyInvoke testRequest rfl
    (by decide) (by decide) (by decide)

/-- C5 (amended): DummyLLM always answers with one of its five fixed
stubs, chosen by the case-insensitive marker scan in the fixed priority
order of the source; but in the pipeline run on the test request the
stages are not all routed to their own stubs: hotels, leisure and food
receive their own stubs, while the planner prompt (which lists the LAZER
subtask) receives the leisure stub and the writer prompt (which contains
HOSPEDAGEM and the word tabelas) receives the hotels stub instead of the
prose report. -/
theorem dummy_routing_full_run :
    (∀ messages, dummyInvoke messages = hotelsStub ∨
      dummyInvoke messages = leisureStub ∨ dummyInvoke messages = foodStub ∨
      dummyInvoke messages = reportStub ∨ dummyInvoke messages = planStub) ∧
    build_graph dummyInvoke dummyEnv testRequest =
      { testRequest with
        plan := some leisureStub
        hotels := some hotelsStub
        leisure := some leisureStub
        food := some foodStub
        final := some hotelsStub } ∧
    leisureStub ≠ planStub ∧ hotelsStub ≠ reportStub :=
  ⟨dummyInvoke_mem_stubs, by decide, by decide, by decide⟩

/-- Counterexample for C5 as stated: the planner stage prompt of the test
request is routed by DummyLLM to the leisure stub, not to the planning
stub of its own stage. -/
theorem dummy_routing_counterexample :
    dummyInvoke [plannerSystem, plannerHuman testRequest] = leisureStub ∧
    leisureStub ≠ planStub :=
  ⟨by decide, by decide⟩

/-- C7: the context grows monotonically.  Every node factory returns a
dict holding only its own output key; one run writes the keys plan,
hotels, leisure, food, final exactly once each and in that order; the
request fields survive the run unchanged; and the plan key of the final
context is exactly what the planner wrote from the initial request, so no
later stage mutated it. -/
theorem context_monotonic_growth (llm : Capability) (env : PyEnv)
    (s : TripState) :
    (∀ s', ∃ t, make_planner_node llm env s' = [("plan", t)]) ∧
    (∀ s', ∃ t, make_hotels_node llm env s' = [("hotels", t)]) ∧
    (∀ s', ∃ t, make_leisure_node llm env s' = [("leisure", t)]) ∧
    (∀ s', ∃ t, make_food_node llm env s' = [("food", t)]) ∧
    (∀ s', ∃ t, make_writer_node llm env s' = [("final", t)]) ∧
    (runTrace llm env s).map Prod.fst =
      ["plan", "hotels", "leisure", "food", "final"] ∧
    (build_graph llm env s).destino = s.destino ∧
    (build_graph llm env s).data_inicio = s.data_inicio ∧
    (build_graph llm env s).data_fim = s.data_fim ∧
    (build_graph llm env s).orcamento = s.orcamento ∧
    (build_graph llm env s).preferencias = s.preferencias ∧
    (build_graph llm env s).plan =
      some (get_llm env none [plannerSystem, plannerHuman s]) :=
  ⟨fun _ => ⟨_, rfl⟩, fun _ => ⟨_, rfl⟩, fun _ => ⟨_, rfl⟩,
   fun _ => ⟨_, rfl⟩, fun _ => ⟨_, rfl⟩, rfl, rfl, rfl, rfl, rfl, rfl, rfl⟩

/-- C10: every node ignores the llm argument that build_graph and its
node factories receive and resolves its capability afresh as get_llm of no
key, so the run result is identical for any two llm arguments and depends
only on the environment; in particular, passing DummyLLM to build_graph in
an environment where ChatGroq and a key are present does not make the run
use that DummyLLM. -/
theorem llm_argument_ignored (env : PyEnv) (s : TripState)
    (llm1 llm2 : Capability) :
    build_graph llm1 env s = build_graph llm2 env s ∧
    make_planner_node llm1 env s = make_planner_node llm2 env s ∧
    make_hotels_node llm1 env s = make_hotels_node llm2 env s ∧
    make_leisure_node llm1 env s = make_leisure_node llm2 env s ∧
    make_food_node llm1 env s = make_food_node llm2 env s ∧
    make_writer_node llm1 env s = make_writer_node llm2 env s ∧
    (build_graph dummyInvoke probeEnv testRequest).plan = some "PROBE" ∧
    dummyInvoke [plannerSystem, plannerHuman testRequest] ≠ "PROBE" :=
  ⟨rfl, rfl, rfl, rfl, rfl, rfl, rfl, by decide⟩

/-- C4: if the planner stage succeeds with text t but the hotels stage
raises a generation error e, the pipeline halts at once: no later stage
executes, the resulting context contains the plan key and none of the
later keys, and the propagated error carries the name of the failing
stage, hotels. -/
theorem generation_error_halts_pipeline (cap : FCapability) (s : TripState)
    (t e : String)
    (hplan : run_stage cap [plannerSystem, plannerHuman s] = Except.ok t)
    (hhot : run_stage cap
      [hotelsSystem, hotelsHuman { s with plan := some t }] = Except.error e)
    (hhotels : s.hotels = none) (hleisure : s.leisure = none)
    (hfood : s.food = none) (hfinal : s.final = none) :
    (runPipelineF cap s).1.plan = some t ∧
    (runPipelineF cap s).1.hotels = none ∧
    (runPipelineF cap s).1.leisure = none ∧
    (runPipelineF cap s).1.food = none ∧
    (runPipelineF cap s).1.final = none ∧
    (runPipelineF cap s).2 = some ("hotels", e) := by
  have hstep : runPipelineF cap s = ({ s with plan := some t }, some ("hotels", e)) := by
    have ha : applyUpdate s ("plan", t) = { s with plan := some t } := rfl
    simp only [runPipelineF, stagePlanList, List.foldl_cons, List.foldl_nil,
      hplan, ha, hhot]
  rw [hstep]
  exact ⟨rfl, hhotels, hleisure, hfood, hfinal, rfl⟩

/-- Witness for C4: the capability that raises exactly on the hotels
system message, run on the test request. -/
theorem generation_error_halts_pipeline_witness :
    (runPipelineF failingHotelsCap testRequest).1.plan = some leisureStub ∧
    (runPipelineF failingHotelsCap testRequest).1.hotels = none ∧
    (runPipelineF failingHotelsCap testRequest).1.leisure = none ∧
    (runPipelineF failingHotelsCap testRequest).1.food = none ∧
    (runPipelineF failingHotelsCap testRequest).1.final = none ∧
    (runPipelineF failingHotelsCap testRequest).2 = some ("hotels", "boom") :=
  generation_error_halts_pipeline failingHotelsCap testRequest leisureStub
    "boom" rfl rfl rfl rfl rfl rfl

/-- One run of the graph makes exactly five capability invocations, one
per node. -/
theorem runTrace_length (llm : Capability) (env : PyEnv) (s : TripState) :
    (runTrace llm env s).length = 5 := rfl

/-- C6: a CLI invocation whose resolved request fails validation prints
the intro line and the error, exits with status 2, never builds the graph
and makes zero model calls; an invocation whose request validates prints
the five stage outputs in the fixed section order plan, hotels, leisure,
food, final, exits with status 0 and makes exactly five model calls. -/
theorem run_cli_spec (penv : PyEnv) (env : CliEnv) (stdin : CliStdin) :
    (∀ m, validate_inputs (cliRequest env stdin).destino
        (cliRequest env stdin).data_inicio (cliRequest env stdin).data_fim =
        (false, some m) →
      run_cli penv env stdin =
        { stdout := [cliIntro, "Erro: " ++ m]
          exitCode := 2
          graphBuilt := false
          modelCalls := 0 }) ∧
    (validate_inputs (cliRequest env stdin).destino
        (cliRequest env stdin).data_inicio (cliRequest env stdin).data_fim =
        (true, none) →
      run_cli penv env stdin =
        { stdout := [cliIntro,
            "\n=== 📋 PLANEJAMENTO ===\n",
            (build_graph (get_llm penv penv.groq_api_key) penv
              (cliRequest env stdin)).plan.getD "",
            "\n=== 🏨 HOSPEDAGEM ===\n",
            (build_graph (get_llm penv penv.groq_api_key) penv
              (cliRequest env stdin)).hotels.getD "",
            "\n=== 🎭 LAZER ===\n",
            (build_graph (get_llm penv penv.groq_api_key) penv
              (cliRequest env stdin)).leisure.getD "",
            "\n=== 🍽️ ALIMENTAÇÃO ===\n",
            (build_graph (get_llm penv penv.groq_api_key) penv
              (cliRequest env stdin)).food.getD "",
            "\n=== ✨ RELATÓRIO FINAL ===\n",
            (build_graph (get_llm penv penv.groq_api_key) penv
              (cliRequest env stdin)).final.getD ""]
          exitCode := 0
          graphBuilt := true
          modelCalls := 5 }) := by
  constructor
  · intro m hv
    simp only [run_cli, hv]
    rfl
  · intro hv
    simp only [run_cli, hv, runTrace_length]
    rfl

/-- Environment variables for a CLI run that fails validation: the end
date precedes the start date. -/
def cliEnvInvalid : CliEnv :=
  ⟨some "Lisboa, Portugal", some "2025-01-03", some "2025-01-01", none, none⟩

/-- Environment variables for a CLI run that validates. -/
def cliEnvValid : CliEnv :=
  ⟨some "Lisboa, Portugal", some "2025-01-01", some "2025-01-05",
   some "R$ 5.000", some "Museus e bairros históricos"⟩

/-- No interactive input is typed. -/
def stdinEmpty : CliStdin := ⟨"", "", ""⟩

/-- Witness for C6: the invalid request exits 2 with zero model calls
before building the graph; the valid one exits 0 after five model calls. -/
theorem run_cli_spec_witness :
    run_cli dummyEnv cliEnvInvalid stdinEmpty =
      { stdout := [cliIntro, "Erro: " ++ msgTermino]
        exitCode := 2
        graphBuilt := false
        modelCalls := 0 } ∧
    (run_cli dummyEnv cliEnvValid stdinEmpty).exitCode = 0 ∧
    (run_cli dummyEnv cliEnvValid stdinEmpty).graphBuilt = true ∧
    (run_cli dummyEnv cliEnvValid stdinEmpty).modelCalls = 5 := by
  have h1 := (run_cli_spec dummyEnv cliEnvInvalid stdinEmpty).1 msgTermino
    (by decide)
  have h2 := (run_cli_spec dummyEnv cliEnvValid stdinEmpty).2 (by decide)
  exact ⟨h1, by rw [h2], by rw [h2], by rw [h2]⟩

/-- Environment variables for a CLI run whose optional fields are present
but empty. -/
def cliEnvEmptyOptional : CliEnv :=
  ⟨some "Lisboa, Portugal", some "2025-01-01", some "2025-01-05",
   some "", some ""⟩

/-- Counterexample for C8 as stated: in the CLI variant an optional field
that is present but empty is passed to the pipeline unchanged as the empty
string, not replaced by the placeholder. -/
theorem cli_empty_optional_counterexample :
    cliEnvEmptyOptional.ORCAMENTO = some "" ∧
    (cliRequest cliEnvEmptyOptional stdinEmpty).orcamento = "" ∧
    (cliRequest cliEnvEmptyOptional stdinEmpty).orcamento ≠ "não informado" ∧
    (cliRequest cliEnvEmptyOptional stdinEmpty).preferencias ≠ "não informado" :=
  ⟨rfl, rfl, by decide, by decide⟩

/-- C8 (amended): in the form variants (langgraph_v1.py, the Streamlit
branch of langgraph_v2.py, agentes_viagem.py) an optional field that is
absent or empty is replaced by the placeholder and a non-empty value is
used unchanged; in the CLI variant only an absent environment variable
yields the placeholder, while a present value, even the empty string, is
passed through unchanged. -/
theorem placeholder_substitution_amended (d di df o p : String)
    (env : CliEnv) (stdin : CliStdin) :
    (o = "" → (initial_state_v1 d di df o p).orcamento = "não informado") ∧
    (o ≠ "" → (initial_state_v1 d di df o p).orcamento = o) ∧
    (p = "" → (initial_state_v1 d di df o p).preferencias = "não informado") ∧
    (p ≠ "" → (initial_state_v1 d di df o p).preferencias = p) ∧
    (env.ORCAMENTO = none →
      (cliRequest env stdin).orcamento = "não informado") ∧
    (∀ v, env.ORCAMENTO = some v → (cliRequest env stdin).orcamento = v) ∧
    (env.PREFERENCIAS = none →
      (cliRequest env stdin).preferencias = "não informado") ∧
    (∀ v, env.PREFERENCIAS = some v →
      (cliRequest env stdin).preferencias = v) := by
  refine ⟨fun h => ?_, fun h => ?_, fun h => ?_, fun h => ?_,
    fun h => ?_, fun v h => ?_, fun h => ?_, fun v h => ?_⟩ <;>
    simp [initial_state_v1, cliRequest, pyOrStr, h]

/-- Witness for C8 (amended) at concrete inputs. -/
theorem placeholder_substitution_amended_witness :
    (initial_state_v1 "Lisboa" "2025-01-01" "2025-01-05" "" "x").orcamento =
      "não informado" ∧
    (initial_state_v1 "Lisboa" "2025-01-01" "2025-01-05" "R$ 5.000" "x").orcamento =
      "R$ 5.000" ∧
    (cliRequest cliEnvInvalid stdinEmpty).orcamento = "não informado" ∧
    (cliRequest cliEnvValid stdinEmpty).orcamento = "R$ 5.000" := by
  refine ⟨(placeholder_substitution_amended "Lisboa" "2025-01-01" "2025-01-05"
      "" "x" cliEnvInvalid stdinEmpty).1 rfl,
    (placeholder_substitution_amended "Lisboa" "2025-01-01" "2025-01-05"
      "R$ 5.000" "x" cliEnvInvalid stdinEmpty).2.1 (by decide),
    (placeholder_substitution_amended "Lisboa" "2025-01-01" "2025-01-05"
      "" "x" cliEnvInvalid stdinEmpty).2.2.2.2.1 rfl,
    (placeholder_substitution_amended "Lisboa" "2025-01-01" "2025-01-05"
      "" "x" cliEnvValid stdinEmpty).2.2.2.2.2.1 "R$ 5.000" rfl⟩

/-- Environment of langgraph_v1.py with no key anywhere. -/
def keylessEnvV1 : PyEnvV1 := ⟨none, fun _ _ => "REAL"⟩

/-- C9: the credential is resolved with the explicit non-empty parameter
taking priority over the GROQ_API_KEY environment variable (an absent or
empty parameter falls through to the variable); the real ChatGroq
capability is constructed exactly when the class is importable and the
resolved credential is truthy, with the resolved credential as its key;
the fallback-equipped variant returns DummyLLM when no credential
resolves or ChatGroq is not importable, and the v1 variant raises. -/
theorem credential_resolution_order (env : PyEnv) (envV1 : PyEnvV1)
    (api_key : Option String) (k : String) :
    (k ≠ "" → pyOrOpt (some k) env.groq_api_key = some k) ∧
    (pyOrOpt none env.groq_api_key = env.groq_api_key) ∧
    (pyOrOpt (some "") env.groq_api_key = env.groq_api_key) ∧
    (∀ mk, env.chatGroq = some mk →
      pyTruthy (pyOrOpt api_key env.groq_api_key) = true →
      get_llm_impl env api_key =
        mk ((pyOrOpt api_key env.groq_api_key).getD "")) ∧
    (pyTruthy (pyOrOpt api_key env.groq_api_key) = false →
      get_llm_impl env api_key = dummyInvoke) ∧
    (env.chatGroq = none → get_llm_impl env api_key = dummyInvoke) ∧
    (pyTruthy (pyOrOpt api_key envV1.groq_api_key) = false →
      ∃ msg, get_llm_v1 envV1 api_key = Except.error msg ∧ msg ≠ "") := by
  refine ⟨fun h => ?_, ?_, ?_, fun mk hmk htr => ?_, fun htr => ?_,
    fun hnone => ?_, fun htr => ?_⟩
  · simp [pyOrOpt, pyTruthy, h]
  · simp [pyOrOpt, pyTruthy]
  · simp [pyOrOpt, pyTruthy]
  · simp [get_llm_impl, hmk, htr]
  · cases hcg : env.chatGroq with
    | none => simp [get_llm_impl, hcg]
    | some mk => simp [get_llm_impl, hcg, htr]
  · simp [get_llm_impl, hnone]
  · exact ⟨"Defina a GROQ_API_KEY no ambiente, em st.secrets, ou informe no campo de API Key.",
      by simp [get_llm_v1, htr], by decide⟩

/-- Witness for C9 at concrete environments. -/
theorem credential_resolution_order_witness :
    pyOrOpt (some "explicit-key") (some "env-key") = some "explicit-key" ∧
    pyOrOpt none (some "env-key") = some "env-key" ∧
    get_llm_impl dummyEnv none = dummyInvoke ∧
    (∃ msg, get_llm_v1 keylessEnvV1 none = Except.error msg ∧ msg ≠ "") := by
  refine ⟨(credential_resolution_order ⟨some "env-key", none⟩ keylessEnvV1
      none "explicit-key").1 (by decide),
    (credential_resolution_order ⟨some "env-key", none⟩ keylessEnvV1
      none "explicit-key").2.1,
    (credential_resolution_order dummyEnv keylessEnvV1 none "k").2.2.2.2.2.1
      rfl,
    (credential_resolution_order dummyEnv keylessEnvV1 none "k").2.2.2.2.2.2
      rfl⟩
